import Mathlib

/-!
# Verification of the `TableOfContents.vue` heading-navigator component

Shallow embedding of `src/components/TableOfContents.vue` (the "Heading
Navigator" of the spec).  DOM heading elements are modelled as records, the
document as a list of such records in document order, and the component plus
browser state as an explicit `World` record.  Each script function of the
component (`generateId`, `extractHeadings`, `scrollToHeading`,
`updateActiveHeading`, `handleScroll`) is translated into a Lean function of
the same name.

Modelling notes:
* JavaScript strings are modelled as Lean `String`s over their characters;
  `String.prototype.toLowerCase` is modelled per-character (ASCII case
  mapping), which is exact on the ASCII inputs considered here.
* The regex character class `\w` is `[A-Za-z0-9_]` and `\s` is the JavaScript
  whitespace class (modelled by its common members).
* A global regex `replace(/X+/g, c)` replaces each maximal run of `X`
  characters by the single character `c`; it is modelled by `collapseRuns`.
* Element coordinates (`offsetTop`, `window.scrollY`) are integers;
  `getBoundingClientRect().top` is `offsetTop - scrollY`.
-/

/-- JavaScript regex class `\w`: ASCII letters, digits and underscore. -/
def isWordChar (c : Char) : Bool :=
  (('a' ≤ c && c ≤ 'z') || ('A' ≤ c && c ≤ 'Z') || ('0' ≤ c && c ≤ '9') || c = '_')

/-- JavaScript regex class `\s` (whitespace), modelled by its common members:
space, tab, line feed, carriage return, vertical tab, form feed,
no-break space and the BOM. -/
def isJsSpace (c : Char) : Bool :=
  (c = ' ' || c = '\t' || c = '\n' || c = '\r' || c = '\x0b' ||
   c = '\x0c' || c.toNat = 0xA0 || c.toNat = 0xFEFF)

/-- ASCII lower-casing of one character, the restriction of
`String.prototype.toLowerCase` used here. -/
def jsToLower (c : Char) : Char :=
  if 'A' ≤ c && c ≤ 'Z' then Char.ofNat (c.toNat + 32) else c

/-- `replace(/X+/g, rep)` for the class `p`: every maximal run of characters
satisfying `p` is replaced by the single character `rep`. -/
def collapseRuns (p : Char → Bool) (rep : Char) (l : List Char) : List Char :=
  go false l
where
  /-- `inRun` records whether the previous character was in the class. -/
  go : Bool → List Char → List Char
  | _, [] => []
  | inRun, c :: rest =>
      if p c then
        if inRun then go true rest else rep :: go true rest
      else
        c :: go false rest

/-- `String.prototype.trim`: strip JavaScript whitespace from both ends. -/
def jsTrim (l : List Char) : List Char :=
  ((l.dropWhile isJsSpace).reverse.dropWhile isJsSpace).reverse

/-- `generateId` from `TableOfContents.vue`:
`text.toLowerCase().replace(/[^\w\s-]/g, '').replace(/\s+/g, '-')
     .replace(slash hyphen-run slash g, '-').trim()` (the third regex is a global hyphen-run collapse). -/
def generateId (text : String) : String :=
  String.mk <|
    jsTrim <|
      collapseRuns (fun c => c = '-') '-' <|
        collapseRuns isJsSpace '-' <|
          ((text.data.map jsToLower).filter
            (fun c => isWordChar c || isJsSpace c || c = '-'))

/-- Strip hyphens from both ends of a character list. -/
def trimHyphens (l : List Char) : List Char :=
  ((l.dropWhile (fun c => c = '-')).reverse.dropWhile (fun c => c = '-')).reverse

/-- Modelled from the spec's words, for comparison with `generateId` (this is
not source code): "lowercased, non-word characters stripped, whitespace
collapsed to single hyphens, trimmed of leading/trailing hyphens".  It is
`generateId` with the final step trimming hyphens instead of whitespace. -/
def generateIdSpec (text : String) : String :=
  String.mk <|
    trimHyphens <|
      collapseRuns (fun c => c = '-') '-' <|
        collapseRuns isJsSpace '-' <|
          ((text.data.map jsToLower).filter
            (fun c => isWordChar c || isJsSpace c || c = '-'))

/-- A heading element of the rendered document (`<h1>`..`<h6>`).
`id` is the element's `id` attribute (`""` when absent), `textContent` its
rendered text (`null` modelled as `""`), `level` the digit of its tag name
(`tagName.charAt(1)` parsed), and `offsetTop` its vertical document
position. -/
structure HeadingElem where
  id : String
  textContent : String
  level : Nat
  offsetTop : Int
deriving DecidableEq, Repr

/-- The `Heading` interface of the component: one navigable outline entry. -/
structure Heading where
  id : String
  text : String
  level : Nat
deriving DecidableEq, Repr

/-- The selector `h2, h3, h4`: does `querySelectorAll('h2, h3, h4')` keep this
element? -/
def isTocLevel (e : HeadingElem) : Bool :=
  e.level = 2 || e.level = 3 || e.level = 4

/-- The component's reactive state together with the browser environment:
`headings`, `activeId`, `isVisible` are the three `ref`s; `article` is the
`article.prose` container (`none` when `querySelector` finds nothing) holding
its heading elements in document order; `scrollY` is the viewport scroll
offset; `fragment` the address-bar hash; `scrollTarget` the destination of the
last `window.scrollTo` request (`none` before any). -/
structure World where
  article : Option (List HeadingElem)
  scrollY : Int
  fragment : String
  scrollTarget : Option Int
  headings : List Heading
  activeId : String
  isVisible : Bool
deriving DecidableEq, Repr

/-- `const id = el.id || generateId(el.textContent || '')`: the resolved
identifier of one heading element (an empty `id` attribute is falsy). -/
def resolveId (e : HeadingElem) : String :=
  if e.id = "" then generateId e.textContent else e.id

/-- `if (!el.id) el.id = id`: the element after the extraction loop's
mutation — the resolved identifier is persisted onto an element that lacked
one. -/
def assignId (e : HeadingElem) : HeadingElem :=
  if e.id = "" then { e with id := resolveId e } else e

/-- The `forEach` body of `extractHeadings`, run over the document's heading
elements in order: a qualifying element resolves its identifier, is mutated
when it had none, and contributes one `Heading` entry; other elements are
untouched.  Returns the mutated document and the pushed entries. -/
def extractLoop : List HeadingElem → List HeadingElem × List Heading
  | [] => ([], [])
  | e :: rest =>
      let r := extractLoop rest
      if isTocLevel e then
        (assignId e :: r.1,
         { id := resolveId e, text := e.textContent, level := e.level } :: r.2)
      else
        (e :: r.1, r.2)

/-- `extractHeadings`: when the container is present, run the extraction loop
over its headings, store the entries in `headings` and keep the element
mutations; when `querySelector` returns `null`, return early (no state
change). -/
def extractHeadings (w : World) : World :=
  match w.article with
  | none => w
  | some els =>
      let r := extractLoop els
      { w with article := some r.1, headings := r.2 }

/-- `// Account for header` — the fixed offset subtracted in
`scrollToHeading`. -/
def headerOffset : Int := 100

/-- `// Offset for sticky header` — the look-ahead added to `window.scrollY`
in `updateActiveHeading`. -/
def lookAheadOffset : Int := 150

/-- `document.getElementById(id)`: first element of the document carrying the
identifier (an element with `id = ""` has no identifier and is never
returned). -/
def getElementById (w : World) (id : String) : Option HeadingElem :=
  if id = "" then none
  else (w.article.getD []).find? (fun e => e.id = id)

/-- `scrollToHeading`: when the target exists, request a smooth scroll to
`getBoundingClientRect().top + window.pageYOffset - 100`, push `#id` onto the
history and set `activeId`; otherwise do nothing. -/
def scrollToHeading (w : World) (id : String) : World :=
  match getElementById w id with
  | none => w
  | some element =>
      let elementPosition := element.offsetTop - w.scrollY
      let offsetPosition := elementPosition + w.scrollY - headerOffset
      { w with scrollTarget := some offsetPosition,
               fragment := "#" ++ id,
               activeId := id }

/-- The descending `for` loop of `updateActiveHeading`, already applied to the
reversed element list: the first element (scanning bottom-up) whose
`offsetTop` is at most `scrollPosition` wins (`break`); when none does,
`currentActive` keeps its initial value `''`. -/
def resolveLoop (scrollPosition : Int) : List HeadingElem → String
  | [] => ""
  | e :: rest =>
      if e.offsetTop ≤ scrollPosition then e.id else resolveLoop scrollPosition rest

/-- `updateActiveHeading`: with the container present, scan its
`h2, h3, h4` elements in reverse document order against
`window.scrollY + 150` and store the winner (or `''`) in `activeId`; with the
container absent, return early. -/
def updateActiveHeading (w : World) : World :=
  match w.article with
  | none => w
  | some els =>
      let scrollPosition := w.scrollY + lookAheadOffset
      { w with activeId := resolveLoop scrollPosition ((els.filter isTocLevel).reverse) }

/-- `handleScroll`: recompute the active heading, then, when a first outline
entry exists and its element is found, show the surface iff the viewport has
scrolled past that element's top minus 200. -/
def handleScroll (w : World) : World :=
  let w1 := updateActiveHeading w
  match w1.headings.head? with
  | none => w1
  | some firstHeading =>
      match getElementById w1 firstHeading.id with
      | none => w1
      | some element =>
          { w1 with isVisible := decide (element.offsetTop - 200 < w1.scrollY) }

/-- A scroll (or resize) event at viewport offset `y`: the offset changes and
the registered listener `handleScroll` runs. -/
def scrollEvent (w : World) (y : Int) : World :=
  handleScroll { w with scrollY := y }

/-- A whole session of scroll events, processed one at a time (the browser
event loop runs each listener invocation to completion). -/
def scrollEvents (ys : List Int) (w : World) : World :=
  ys.foldl scrollEvent w

/-! ## Helper lemmas -/

theorem dropWhile_eq_self_of_none {p : Char → Bool} {l : List Char}
    (h : ∀ c ∈ l, p c = false) : l.dropWhile p = l := by
  cases l with
  | nil => rfl
  | cons a t => simp [List.dropWhile, h a (List.mem_cons_self a t)]

theorem jsTrim_eq_self {l : List Char} (h : ∀ c ∈ l, isJsSpace c = false) :
    jsTrim l = l := by
  unfold jsTrim
  rw [dropWhile_eq_self_of_none h, dropWhile_eq_self_of_none, List.reverse_reverse]
  intro c hc
  exact h c (List.mem_reverse.mp hc)

theorem mem_collapseRuns_go {p : Char → Bool} {rep c : Char} :
    ∀ {l : List Char} {b : Bool}, c ∈ collapseRuns.go p rep b l →
      c = rep ∨ (c ∈ l ∧ p c = false) := by
  intro l
  induction l with
  | nil =>
      intro b h
      simp [collapseRuns.go] at h
  | cons a t ih =>
      intro b h
      rw [collapseRuns.go] at h
      by_cases hp : p a = true
      · rw [if_pos hp] at h
        have h2 : c = rep ∨ c ∈ collapseRuns.go p rep true t := by
          cases b with
          | false =>
              rw [if_neg (by simp)] at h
              exact List.mem_cons.mp h
          | true =>
              rw [if_pos rfl] at h
              exact Or.inr h
        rcases h2 with h3 | h3
        · exact Or.inl h3
        · rcases ih h3 with h4 | h4
          · exact Or.inl h4
          · exact Or.inr ⟨List.mem_cons_of_mem a h4.1, h4.2⟩
      · rw [if_neg hp] at h
        rcases List.mem_cons.mp h with h3 | h3
        · subst h3
          exact Or.inr ⟨List.mem_cons_self c t, by simpa using hp⟩
        · rcases ih h3 with h4 | h4
          · exact Or.inl h4
          · exact Or.inr ⟨List.mem_cons_of_mem a h4.1, h4.2⟩

theorem mem_collapseRuns {p : Char → Bool} {rep c : Char} {l : List Char}
    (h : c ∈ collapseRuns p rep l) : c = rep ∨ (c ∈ l ∧ p c = false) :=
  mem_collapseRuns_go h

/-! ## Claim C1 -/

/-- C1 counterexample: the offset subtracted by `scrollToHeading` (100) and
the look-ahead added by `updateActiveHeading` (150) are not one shared
constant. -/
theorem headerOffset_ne_lookAheadOffset : ¬ (headerOffset = lookAheadOffset) := by
  decide

/-- C1 amended: `scrollToHeading` scrolls to the target's top minus
`headerOffset`, and the two constants are 100 and 150 respectively —
distinct, not shared. -/
theorem scroll_offset_constants :
    (∀ (w : World) (id : String),
      (scrollToHeading w id).scrollTarget =
        match getElementById w id with
        | none => w.scrollTarget
        | some e => some (e.offsetTop - headerOffset)) ∧
    headerOffset = 100 ∧ lookAheadOffset = 150 ∧ headerOffset ≠ lookAheadOffset := by
  refine ⟨?_, by decide, by decide, by decide⟩
  intro w id
  unfold scrollToHeading
  cases getElementById w id with
  | none => rfl
  | some e => simp

/-! ## Claim C2 -/

/-- C2 counterexample: the final `.trim()` of `generateId` removes
whitespace, not hyphens, so on `" hello "` the code yields `"-hello-"` while
the spec's pipeline (trimmed of leading/trailing hyphens) yields
`"hello"`. -/
theorem generateId_trim_counterexample :
    generateId " hello " = "-hello-" ∧ generateIdSpec " hello " = "hello" ∧
    generateId " hello " ≠ generateIdSpec " hello " := by
  decide

/-- C2 amended: the generated identifier is the text lowercased, characters
other than word characters, whitespace and hyphens stripped, whitespace runs
collapsed to single hyphens, hyphen runs collapsed; the final whitespace trim
is a no-op, so leading and trailing hyphens are NOT removed.  The scenario
`"API & Usage!"` → `"api-usage"` does hold. -/
theorem generateId_amended :
    generateId "API & Usage!" = "api-usage" ∧
    ∀ text : String, generateId text = String.mk
      (collapseRuns (fun c => c = '-') '-'
        (collapseRuns isJsSpace '-'
          ((text.data.map jsToLower).filter
            (fun c => isWordChar c || isJsSpace c || c = '-')))) := by
  refine ⟨by decide, ?_⟩
  intro text
  unfold generateId
  congr 1
  apply jsTrim_eq_self
  intro c hc
  rcases mem_collapseRuns hc with h | h
  · subst h; decide
  · rcases mem_collapseRuns h.1 with h2 | h2
    · subst h2; decide
    · exact h2.2

/-! ## Characterizations of the extraction and resolution loops -/

theorem extractLoop_snd (els : List HeadingElem) :
    (extractLoop els).2 = (els.filter isTocLevel).map
      (fun e => { id := resolveId e, text := e.textContent, level := e.level }) := by
  induction els with
  | nil => rfl
  | cons e t ih =>
      by_cases h : isTocLevel e = true
      · simp [extractLoop, h, List.filter_cons, ih]
      · simp [extractLoop, h, List.filter_cons, ih]

theorem resolveLoop_eq_head? (sp : Int) (l : List HeadingElem) :
    resolveLoop sp l =
      (((l.filter (fun e => e.offsetTop ≤ sp)).head?).map HeadingElem.id).getD "" := by
  induction l with
  | nil => rfl
  | cons e t ih =>
      by_cases h : e.offsetTop ≤ sp
      · simp [resolveLoop, List.filter_cons, h]
      · simp [resolveLoop, List.filter_cons, h, ih]

/-! ## Claim C3 -/

/-- C3: `updateActiveHeading` sets `activeId` to the identifier of the last
qualifying heading (in document order) whose top is at or above
`scrollY + lookAheadOffset` — the first match of the bottom-to-top scan — and
to `""` when no heading qualifies; with the container absent it leaves
`activeId` unchanged. -/
theorem updateActiveHeading_resolves_last_qualifying :
    ∀ w : World, (updateActiveHeading w).activeId =
      match w.article with
      | none => w.activeId
      | some els =>
          ((((els.filter isTocLevel).filter
              (fun e => e.offsetTop ≤ w.scrollY + lookAheadOffset)).getLast?).map
            HeadingElem.id).getD "" := by
  intro w
  cases harticle : w.article with
  | none => simp [updateActiveHeading, harticle]
  | some els =>
      simp only [updateActiveHeading, harticle, resolveLoop_eq_head?]
      rw [List.filter_reverse, List.head?_reverse]

/-! ## Claim C4 -/

/-- C4 counterexample: two anchor-less headings with identical text receive
identical generated identifiers, so the extracted identifiers are not
pairwise distinct within one snapshot. -/
theorem extract_duplicate_identifiers_counterexample :
    (extractHeadings
        { article := some [{ id := "", textContent := "Overview", level := 2, offsetTop := 0 },
                           { id := "", textContent := "Overview", level := 2, offsetTop := 500 }],
          scrollY := 0, fragment := "", scrollTarget := none,
          headings := [], activeId := "", isVisible := false }).headings.map Heading.id
      = ["overview", "overview"] ∧
    ¬ ((extractHeadings
        { article := some [{ id := "", textContent := "Overview", level := 2, offsetTop := 0 },
                           { id := "", textContent := "Overview", level := 2, offsetTop := 500 }],
          scrollY := 0, fragment := "", scrollTarget := none,
          headings := [], activeId := "", isVisible := false }).headings.map Heading.id).Nodup := by
  decide

/-- C4 amended: each produced entry's identifier is the resolved identifier
(existing anchor, else generated from the text) of its qualifying heading, so
the identifiers are pairwise distinct exactly when those resolved identifiers
are — headings with identical text and no anchor collide. -/
theorem extract_identifiers_nodup_of_resolved_nodup :
    ∀ els : List HeadingElem,
      ((els.filter isTocLevel).map resolveId).Nodup →
      ((extractLoop els).2.map Heading.id).Nodup := by
  intro els h
  rw [extractLoop_snd, List.map_map]
  exact h

/-- C4 witness: a concrete snapshot whose resolved identifiers are distinct,
on which the amended theorem yields distinct extracted identifiers. -/
theorem extract_identifiers_nodup_witness :
    ((([{ id := "", textContent := "Intro", level := 2, offsetTop := 0 },
        { id := "", textContent := "Usage", level := 3, offsetTop := 10 }] :
          List HeadingElem).filter isTocLevel).map resolveId).Nodup ∧
    ((extractLoop [{ id := "", textContent := "Intro", level := 2, offsetTop := 0 },
       { id := "", textContent := "Usage", level := 3, offsetTop := 10 }]).2.map
      Heading.id).Nodup :=
  ⟨by decide, extract_identifiers_nodup_of_resolved_nodup _ (by decide)⟩

/-! ## Persistence of assigned identifiers -/

theorem assignId_textContent (e : HeadingElem) :
    (assignId e).textContent = e.textContent := by
  unfold assignId
  split <;> rfl

theorem assignId_level (e : HeadingElem) : (assignId e).level = e.level := by
  unfold assignId
  split <;> rfl

theorem isTocLevel_assignId (e : HeadingElem) :
    isTocLevel (assignId e) = isTocLevel e := by
  unfold isTocLevel
  rw [assignId_level]

theorem resolveId_assignId (e : HeadingElem) :
    resolveId (assignId e) = resolveId e := by
  obtain ⟨i, t, l, o⟩ := e
  by_cases h : i = ""
  · subst h
    simp [assignId, resolveId]
  · simp [assignId, resolveId, h]

theorem assignId_assignId (e : HeadingElem) :
    assignId (assignId e) = assignId e := by
  obtain ⟨i, t, l, o⟩ := e
  by_cases h : i = ""
  · subst h
    simp only [assignId, resolveId, if_pos rfl]
    split_ifs with h2 <;> simp_all
  · simp [assignId, h]

theorem extractLoop_fixpoint (els : List HeadingElem) :
    extractLoop (extractLoop els).1 = extractLoop els := by
  induction els with
  | nil => rfl
  | cons e t ih =>
      by_cases h : isTocLevel e = true
      · simp only [extractLoop, h, if_true]
        simp only [extractLoop, isTocLevel_assignId, h, if_true, ih,
          resolveId_assignId, assignId_assignId, assignId_textContent, assignId_level]
      · simp only [extractLoop, h, if_false, Bool.false_eq_true]
        simp only [extractLoop, h, if_false, Bool.false_eq_true, ih]

/-! ## Claim C5 -/

/-- C5: extraction is idempotent — a second run on the (mutated but otherwise
unchanged) document reproduces the same mutated document and the same
entries, identifiers included, because identifiers persisted onto the
elements are reused. -/
theorem extractHeadings_idempotent :
    ∀ w : World, extractHeadings (extractHeadings w) = extractHeadings w := by
  intro w
  cases h : w.article with
  | none => simp [extractHeadings, h]
  | some els => simp [extractHeadings, h, extractLoop_fixpoint]

/-! ## Claim C6 -/

/-- C6: with the container present, the extracted outline is exactly one
entry per level-2/3/4 heading of the document, in document order, with the
entry's `level` the heading's level and its `text` the heading's text
(level-1 headings are excluded by the selector). -/
theorem extractHeadings_entries_spec :
    ∀ (w : World) (els : List HeadingElem), w.article = some els →
      (extractHeadings w).headings =
        (els.filter isTocLevel).map
          (fun e => { id := resolveId e, text := e.textContent, level := e.level }) := by
  intro w els h
  simp [extractHeadings, h, extractLoop_snd]

/-- C6 witness: a concrete document with headings at levels 2, 3 and 1
(the level-1 "Title" is excluded; "Setup" keeps its existing anchor). -/
theorem extractHeadings_entries_spec_witness :
    (extractHeadings
        { article := some
            [{ id := "", textContent := "Intro", level := 2, offsetTop := 0 },
             { id := "setup", textContent := "Setup", level := 3, offsetTop := 10 },
             { id := "", textContent := "Title", level := 1, offsetTop := 20 }],
          scrollY := 0, fragment := "", scrollTarget := none,
          headings := [], activeId := "", isVisible := false }).headings
      = [{ id := "intro", text := "Intro", level := 2 },
         { id := "setup", text := "Setup", level := 3 }] := by
  rw [extractHeadings_entries_spec _ _ rfl]
  decide

/-! ## Claim C7 -/

/-- C7: when the navigation target does not exist in the document,
`scrollToHeading` is a no-op — the whole state, component and browser alike,
is unchanged. -/
theorem scrollToHeading_missing_target_noop :
    ∀ (w : World) (id : String), getElementById w id = none →
      scrollToHeading w id = w := by
  intro w id h
  simp [scrollToHeading, h]

/-- C7 witness: navigating to `"intro"` in an empty document changes
nothing. -/
theorem scrollToHeading_missing_target_noop_witness :
    getElementById
        { article := some [], scrollY := 25, fragment := "", scrollTarget := none,
          headings := [], activeId := "", isVisible := false } "intro" = none ∧
    scrollToHeading
        { article := some [], scrollY := 25, fragment := "", scrollTarget := none,
          headings := [], activeId := "", isVisible := false } "intro"
      = { article := some [], scrollY := 25, fragment := "", scrollTarget := none,
          headings := [], activeId := "", isVisible := false } :=
  ⟨by decide, scrollToHeading_missing_target_noop _ _ (by decide)⟩

/-! ## Frame lemmas for the scroll handlers -/

theorem updateActiveHeading_headings (w : World) :
    (updateActiveHeading w).headings = w.headings := by
  unfold updateActiveHeading
  cases w.article <;> rfl

theorem updateActiveHeading_isVisible (w : World) :
    (updateActiveHeading w).isVisible = w.isVisible := by
  unfold updateActiveHeading
  cases w.article <;> rfl

theorem handleScroll_headings (w : World) :
    (handleScroll w).headings = w.headings := by
  simp only [handleScroll]
  split
  · exact updateActiveHeading_headings w
  · split
    · exact updateActiveHeading_headings w
    · exact updateActiveHeading_headings w

theorem handleScroll_of_headings_nil (w : World) (h : w.headings = []) :
    handleScroll w = updateActiveHeading w := by
  simp only [handleScroll]
  rw [show (updateActiveHeading w).headings = [] from by
        rw [updateActiveHeading_headings, h]]
  rfl

theorem scrollEvent_preserves_empty (w : World) (y : Int)
    (h1 : w.headings = []) (h2 : w.isVisible = false) :
    (scrollEvent w y).headings = [] ∧ (scrollEvent w y).isVisible = false := by
  unfold scrollEvent
  refine ⟨?_, ?_⟩
  · rw [handleScroll_headings]
    exact h1
  · rw [handleScroll_of_headings_nil _ (by exact h1), updateActiveHeading_isVisible]
    exact h2

theorem scrollEvents_preserves_empty :
    ∀ (ys : List Int) (w : World), w.headings = [] → w.isVisible = false →
      (scrollEvents ys w).headings = [] ∧ (scrollEvents ys w).isVisible = false := by
  intro ys
  induction ys with
  | nil => intro w h1 h2; exact ⟨h1, h2⟩
  | cons y t ih =>
      intro w h1 h2
      have hstep := scrollEvent_preserves_empty w y h1 h2
      exact ih (scrollEvent w y) hstep.1 hstep.2

/-! ## Claim C8 -/

/-- C8: starting from the mount state (no entries, surface hidden), when the
content container is absent or contains no level-2/3/4 heading, extraction
leaves the outline empty and no sequence of scroll or resize events at any
offsets ever makes the surface visible. -/
theorem empty_outline_never_visible :
    ∀ w : World, w.headings = [] → w.isVisible = false →
      (w.article = none ∨ ∀ els, w.article = some els → els.filter isTocLevel = []) →
      (extractHeadings w).headings = [] ∧
      ∀ ys : List Int, (scrollEvents ys (extractHeadings w)).isVisible = false := by
  intro w h1 h2 h3
  have hext : (extractHeadings w).headings = [] ∧ (extractHeadings w).isVisible = false := by
    cases harticle : w.article with
    | none => simp [extractHeadings, harticle, h1, h2]
    | some els =>
        rcases h3 with h | h
        · rw [harticle] at h
          cases h
        · have hfilter := h els harticle
          simp [extractHeadings, harticle, extractLoop_snd, hfilter, h2]
  exact ⟨hext.1, fun ys => (scrollEvents_preserves_empty ys _ hext.1 hext.2).2⟩

/-- C8 witness: a mount with no content container stays invisible through a
concrete scroll session. -/
theorem empty_outline_never_visible_witness :
    (extractHeadings
        { article := none, scrollY := 0, fragment := "", scrollTarget := none,
          headings := [], activeId := "", isVisible := false }).headings = [] ∧
    (scrollEvents [300, 50, 1000]
        (extractHeadings
          { article := none, scrollY := 0, fragment := "", scrollTarget := none,
            headings := [], activeId := "", isVisible := false })).isVisible = false := by
  have h := empty_outline_never_visible
    { article := none, scrollY := 0, fragment := "", scrollTarget := none,
      headings := [], activeId := "", isVisible := false } rfl rfl (Or.inl rfl)
  exact ⟨h.1, h.2 [300, 50, 1000]⟩

/-! ## Claim C9 -/

/-- C9: when the target exists, `scrollToHeading` itself sets the address
fragment to `#` followed by the identifier and marks that identifier active,
with no scroll event in between. -/
theorem scrollToHeading_sets_fragment_and_active :
    ∀ (w : World) (id : String) (e : HeadingElem), getElementById w id = some e →
      (scrollToHeading w id).fragment = "#" ++ id ∧
      (scrollToHeading w id).activeId = id := by
  intro w id e h
  simp [scrollToHeading, h]

/-- C9 witness: navigating to the concrete heading `"intro"`. -/
theorem scrollToHeading_sets_fragment_and_active_witness :
    getElementById
        { article := some [{ id := "intro", textContent := "Intro", level := 2, offsetTop := 400 }],
          scrollY := 0, fragment := "", scrollTarget := none,
          headings := [], activeId := "", isVisible := false } "intro"
      = some { id := "intro", textContent := "Intro", level := 2, offsetTop := 400 } ∧
    (scrollToHeading
        { article := some [{ id := "intro", textContent := "Intro", level := 2, offsetTop := 400 }],
          scrollY := 0, fragment := "", scrollTarget := none,
          headings := [], activeId := "", isVisible := false } "intro").fragment = "#intro" ∧
    (scrollToHeading
        { article := some [{ id := "intro", textContent := "Intro", level := 2, offsetTop := 400 }],
          scrollY := 0, fragment := "", scrollTarget := none,
          headings := [], activeId := "", isVisible := false } "intro").activeId = "intro" := by
  refine ⟨by decide, ?_⟩
  have h := scrollToHeading_sets_fragment_and_active
    { article := some [{ id := "intro", textContent := "Intro", level := 2, offsetTop := 400 }],
      scrollY := 0, fragment := "", scrollTarget := none,
      headings := [], activeId := "", isVisible := false } "intro"
    { id := "intro", textContent := "Intro", level := 2, offsetTop := 400 } (by decide)
  exact ⟨h.1, h.2⟩

/-! ## Claim C10 -/

/-- C10: whether or not the target exists, `scrollToHeading` never changes
the outline entries or the visibility flag — of the component's state it
mutates at most `activeId`. -/
theorem scrollToHeading_frame :
    ∀ (w : World) (id : String),
      (scrollToHeading w id).headings = w.headings ∧
      (scrollToHeading w id).isVisible = w.isVisible := by
  intro w id
  unfold scrollToHeading
  cases getElementById w id <;> exact ⟨rfl, rfl⟩
